import Mathlib

/-!
Shallow embedding of the session-lifecycle / multi-tenant cache core of the
Clothes_2_fe repository (Redux slices `cartSlice.ts`, `ordersSlice.ts`,
`authSlice.ts`, and the `AutoLogoutProvider` / `App.jsx` configuration),
together with theorems settling the frozen claims about it.

Modelling conventions:
* A JavaScript object used as a string-keyed dictionary is an association
  list `Entries α := List (String × α)`; property update keeps the key at
  its position (as JS objects do), property deletion removes the entry.
* `localStorage` is an association list from full key strings (for example
  the string `cart_` followed by the user id) to stored values; a stored
  value is `some v` for a JSON string that deserializes to `v` and `none`
  for a corrupt string on which `JSON.parse` throws.
* A TypeScript `string | null` is `Option String`; the JS falsy test
  `!userId` is true for both `null` and the empty string, so guards test
  `none` and `some ""`.
* Numbers that the code only ever adds, compares and stores are `Int`;
  timestamps (`Date.now()`, ISO strings derived from it) are `Nat`
  milliseconds.
* The mock network delay (`setTimeout(..., 1000)`) around login is pure
  sequencing, so thunks are modelled as functions on the whole state.
-/

namespace Clothes2

/-! ## String-keyed dictionaries (JS objects) -/

/-- A JS object used as a dictionary: ordered key/value entries. -/
abbrev Entries (α : Type) : Type := List (String × α)

/-- Decidable equality for dictionary entries; stated explicitly because
instance search does not find the product instance at this nesting depth. -/
instance entriesCellDecEq {α : Type} [DecidableEq α] : DecidableEq (String × α) :=
  instDecidableEqProd

/-- Property read: `obj[key]`, `undefined` becomes `none`. -/
def lookupKey {α : Type} : Entries α → String → Option α
  | [], _ => none
  | (k, v) :: rest, key => if k = key then some v else lookupKey rest key

/-- Property write: `obj[key] = v` (replaces in place, else appends). -/
def setKey {α : Type} : Entries α → String → α → Entries α
  | [], key, v => [(key, v)]
  | (k, w) :: rest, key, v =>
    if k = key then (key, v) :: rest else (k, w) :: setKey rest key v

/-- Property deletion: `delete obj[key]`. -/
def eraseKey {α : Type} : Entries α → String → Entries α
  | [], _ => []
  | (k, w) :: rest, key =>
    if k = key then rest else (k, w) :: eraseKey rest key

/-! ## Cart slice (`src/store/slices/cartSlice.ts`) -/

/-- `CartItem`: `size -> quantity`. -/
abbrev CartItem : Type := Entries Int

/-- `CartItems`: `itemId -> (size -> quantity)`. -/
abbrev CartItems : Type := Entries CartItem

/-- The cart collection area of `localStorage`: `cart_` keys to decoded
carts, `none` marking a stored string `JSON.parse` would throw on. -/
abbrev CartStorage : Type := Entries (Option CartItems)

/-- The quantity stored at `(itemId, size)`, `none` if absent. -/
def getQty (c : CartItems) (itemId size : String) : Option Int :=
  match lookupKey c itemId with
  | none => none
  | some inner => lookupKey inner size

/-- `loadCartFromStorage`: empty cart for a falsy userId, for a missing
key, and for a deserialization failure. -/
def loadCartFromStorage (userId : Option String) (σ : CartStorage) : CartItems :=
  match userId with
  | none => []
  | some u =>
    if u = "" then []
    else
      match lookupKey σ ("cart_" ++ u) with
      | none => []
      | some none => []
      | some (some c) => c

/-- `saveCartToStorage`: no-op for a falsy userId, else writes the cart
under the key `cart_` ++ userId. -/
def saveCartToStorage (cartItems : CartItems) (userId : Option String)
    (σ : CartStorage) : CartStorage :=
  match userId with
  | none => σ
  | some u =>
    if u = "" then σ else setKey σ ("cart_" ++ u) (some cartItems)

/-- `removeCartFromStorage`: deletes the durable key for a user. -/
def removeCartFromStorage (userId : String) (σ : CartStorage) : CartStorage :=
  if userId = "" then σ else eraseKey σ ("cart_" ++ userId)

/-- The in-memory `CartState` of the slice. -/
structure CartState where
  cartItems : CartItems
  currentUserId : Option String
deriving DecidableEq, Repr

/-- The cart slice together with the durable storage it reads and writes. -/
structure CartSys where
  cart : CartState
  storage : CartStorage
deriving DecidableEq, Repr

/-- The slice's `initialState` with an empty `localStorage`. -/
def initCartSys : CartSys :=
  { cart := { cartItems := [], currentUserId := none }, storage := [] }

/-- Reducer `initializeCart`. -/
def initializeCart (userId : String) (s : CartSys) : CartSys :=
  { s with
    cart := { currentUserId := some userId,
              cartItems := loadCartFromStorage (some userId) s.storage } }

/-- Reducer `clearCartOnLogout`. -/
def clearCartOnLogout (s : CartSys) : CartSys :=
  { s with cart := { cartItems := [], currentUserId := none } }

/-- The cart update performed by `addToCart` (lines 118-128): the inner
read `cartData[itemId][size]` is a JS truthiness test, so an existing
quantity `0` is overwritten with `1` rather than incremented. -/
def addToCartData (c : CartItems) (itemId size : String) : CartItems :=
  match lookupKey c itemId with
  | some inner =>
    match lookupKey inner size with
    | some q =>
      if q ≠ 0 then setKey c itemId (setKey inner size (q + 1))
      else setKey c itemId (setKey inner size 1)
    | none => setKey c itemId (setKey inner size 1)
  | none => setKey c itemId [(size, 1)]

/-- Reducer `addToCart`: rejects an empty size, rejects a falsy
`currentUserId`, otherwise updates the cart and persists it. -/
def addToCart (itemId size : String) (s : CartSys) : CartSys :=
  if size = "" then s
  else
    match s.cart.currentUserId with
    | none => s
    | some u =>
      if u = "" then s
      else
        { cart := { cartItems := addToCartData s.cart.cartItems itemId size,
                    currentUserId := some u },
          storage := saveCartToStorage (addToCartData s.cart.cartItems itemId size)
                       (some u) s.storage }

/-- The cart update performed by `updateQuantity`: quantity `0` deletes
the entry (and the item when its last size goes), any other quantity is
stored verbatim. -/
def updateQuantityData (c : CartItems) (itemId size : String) (quantity : Int) :
    CartItems :=
  if quantity = 0 then
    match lookupKey c itemId with
    | some inner =>
      if eraseKey inner size = [] then eraseKey c itemId
      else setKey c itemId (eraseKey inner size)
    | none => c
  else
    match lookupKey c itemId with
    | some inner => setKey c itemId (setKey inner size quantity)
    | none => setKey c itemId (setKey [] size quantity)

/-- Reducer `updateQuantity`. -/
def updateQuantity (itemId size : String) (quantity : Int) (s : CartSys) : CartSys :=
  match s.cart.currentUserId with
  | none => s
  | some u =>
    if u = "" then s
    else
      { cart := { cartItems := updateQuantityData s.cart.cartItems itemId size quantity,
                  currentUserId := some u },
        storage := saveCartToStorage
                     (updateQuantityData s.cart.cartItems itemId size quantity)
                     (some u) s.storage }

/-- The deletion performed by `removeFromCart` (and by each iteration of
`removeSelectedItems`): guarded by a truthiness test on the existing
quantity, removing the item when its last size goes. -/
def removeFromCartData (c : CartItems) (itemId size : String) : CartItems :=
  match lookupKey c itemId with
  | some inner =>
    match lookupKey inner size with
    | some q =>
      if q ≠ 0 then
        if eraseKey inner size = [] then eraseKey c itemId
        else setKey c itemId (eraseKey inner size)
      else c
    | none => c
  | none => c

/-- Reducer `removeFromCart`: persists even when nothing was deleted. -/
def removeFromCart (itemId size : String) (s : CartSys) : CartSys :=
  match s.cart.currentUserId with
  | none => s
  | some u =>
    if u = "" then s
    else
      { cart := { cartItems := removeFromCartData s.cart.cartItems itemId size,
                  currentUserId := some u },
        storage := saveCartToStorage (removeFromCartData s.cart.cartItems itemId size)
                     (some u) s.storage }

/-- `SelectedItem` payload entries of `removeSelectedItems`. -/
structure SelectedItem where
  itemId : String
  size : String
deriving DecidableEq, Repr

/-- Reducer `removeSelectedItems`: no-op on an empty selection, otherwise
deletes each selected entry and persists once. -/
def removeSelectedItems (selectedItems : List SelectedItem) (s : CartSys) : CartSys :=
  match s.cart.currentUserId with
  | none => s
  | some u =>
    if u = "" then s
    else if selectedItems = [] then s
    else
      { cart := { cartItems := selectedItems.foldl
                    (fun c it => removeFromCartData c it.itemId it.size) s.cart.cartItems,
                  currentUserId := some u },
        storage := saveCartToStorage
                     (selectedItems.foldl
                       (fun c it => removeFromCartData c it.itemId it.size) s.cart.cartItems)
                     (some u) s.storage }

/-- Reducer `clearCart`: no-op on an empty cart, otherwise empties and
persists the empty cart. -/
def clearCart (s : CartSys) : CartSys :=
  match s.cart.currentUserId with
  | none => s
  | some u =>
    if u = "" then s
    else if s.cart.cartItems = [] then s
    else
      { cart := { cartItems := [], currentUserId := some u },
        storage := saveCartToStorage [] (some u) s.storage }

/-- Reducer `deleteUserCart`: removes the durable key and clears memory
only when the deleted user is the active one. -/
def deleteUserCart (userId : String) (s : CartSys) : CartSys :=
  let σ2 := removeCartFromStorage userId s.storage
  if s.cart.currentUserId = some userId then
    { cart := { cartItems := [], currentUserId := s.cart.currentUserId },
      storage := σ2 }
  else { s with storage := σ2 }

/-- Selector `selectCartCount`: `0` for a falsy `currentUserId`, else the
accumulated sum of the strictly positive quantities. -/
def selectCartCount (s : CartState) : Int :=
  match s.currentUserId with
  | none => 0
  | some u =>
    if u = "" then 0
    else
      s.cartItems.foldl
        (fun acc item =>
          item.2.foldl (fun acc2 e => if e.2 > 0 then acc2 + e.2 else acc2) acc)
        0

/-! ## Orders slice (`src/store/slices/ordersSlice.ts`) -/

/-- `OrderStatus` union type. -/
inductive OrderStatus
  | pending | confirmed | processing | shipped | delivered | cancelled
deriving DecidableEq, Repr

/-- `PaymentMethod` union type. -/
inductive PaymentMethod
  | cod | card | paypal | bank_transfer
deriving DecidableEq, Repr

/-- `DeliveryInfo` record. -/
structure DeliveryInfo where
  firstName : String
  lastName : String
  email : String
  street : String
  city : String
  state : String
  zipcode : String
  country : String
  phone : String
deriving DecidableEq, Repr

/-- `Order` record; `createdAt` and `estimatedDelivery` (ISO strings built
from `Date.now()`) are kept as millisecond timestamps. -/
structure Order where
  id : String
  userId : String
  items : CartItems
  deliveryInfo : DeliveryInfo
  paymentMethod : PaymentMethod
  totalAmount : Int
  status : OrderStatus
  createdAt : Nat
  estimatedDelivery : Nat
deriving DecidableEq, Repr

/-- The orders collection area of `localStorage`, keyed by `orders_` plus
the user id; `none` marks a corrupt stored string. -/
abbrev OrdersStorage : Type := Entries (Option (List Order))

/-- `loadOrdersFromStorage`: empty list for a falsy userId, a missing key
or a deserialization failure. -/
def loadOrdersFromStorage (userId : Option String) (σ : OrdersStorage) : List Order :=
  match userId with
  | none => []
  | some u =>
    if u = "" then []
    else
      match lookupKey σ ("orders_" ++ u) with
      | none => []
      | some none => []
      | some (some os) => os

/-- `saveOrdersToStorage`: no-op for a falsy userId. -/
def saveOrdersToStorage (orders : List Order) (userId : Option String)
    (σ : OrdersStorage) : OrdersStorage :=
  match userId with
  | none => σ
  | some u =>
    if u = "" then σ else setKey σ ("orders_" ++ u) (some orders)

/-- In-memory `OrdersState`. -/
structure OrdersState where
  orders : List Order
  currentUserId : Option String
  isLoading : Bool
deriving DecidableEq, Repr

/-- The orders slice together with its durable storage. -/
structure OrdersSys where
  orders : OrdersState
  storage : OrdersStorage
deriving DecidableEq, Repr

/-- The orders slice's `initialState` with an empty `localStorage`. -/
def initOrdersSys : OrdersSys :=
  { orders := { orders := [], currentUserId := none, isLoading := false },
    storage := [] }

/-- Reducer `initializeOrders`. -/
def initializeOrders (userId : String) (s : OrdersSys) : OrdersSys :=
  { s with
    orders := { s.orders with
                currentUserId := some userId,
                orders := loadOrdersFromStorage (some userId) s.storage } }

/-- Reducer `clearOrdersOnLogout`. -/
def clearOrdersOnLogout (s : OrdersSys) : OrdersSys :=
  { s with orders := { s.orders with orders := [], currentUserId := none } }

/-- `orderData` part of the `addOrder` payload. -/
structure OrderData where
  paymentMethod : Option PaymentMethod
  totalAmount : Int
deriving DecidableEq, Repr

/-- `AddOrderPayload`. -/
structure AddOrderPayload where
  orderData : OrderData
  cartItems : CartItems
  deliveryInfo : DeliveryInfo
deriving DecidableEq, Repr

/-- Reducer `addOrder`; `now` is `Date.now()` at dispatch time. Unshifts
the new confirmed order and persists. -/
def addOrder (payload : AddOrderPayload) (now : Nat) (s : OrdersSys) : OrdersSys :=
  match s.orders.currentUserId with
  | none => s
  | some u =>
    if u = "" then s
    else
      let newOrder : Order :=
        { id := toString now
          userId := u
          items := payload.cartItems
          deliveryInfo := payload.deliveryInfo
          paymentMethod := payload.orderData.paymentMethod.getD PaymentMethod.cod
          totalAmount := payload.orderData.totalAmount
          status := OrderStatus.confirmed
          createdAt := now
          estimatedDelivery := now + 7 * 24 * 60 * 60 * 1000 }
      let orders2 := newOrder :: s.orders.orders
      { orders := { s.orders with orders := orders2 },
        storage := saveOrdersToStorage orders2 (some u) s.storage }

/-- Sets the status of the first order with the given id (`findIndex`
followed by an indexed assignment in the source). -/
def setStatusFirst : List Order → String → OrderStatus → List Order
  | [], _, _ => []
  | o :: rest, orderId, st =>
    if o.id = orderId then { o with status := st } :: rest
    else o :: setStatusFirst rest orderId st

/-- Reducer `updateOrderStatus`: only mutates and persists when an order
with the given id exists (`findIndex !== -1`). -/
def updateOrderStatus (orderId : String) (status : OrderStatus) (s : OrdersSys) :
    OrdersSys :=
  match s.orders.currentUserId with
  | none => s
  | some u =>
    if u = "" then s
    else if s.orders.orders.any (fun o => o.id == orderId) then
      let orders2 := setStatusFirst s.orders.orders orderId status
      { orders := { s.orders with orders := orders2 },
        storage := saveOrdersToStorage orders2 (some u) s.storage }
    else s

/-- Reducer `cancelOrder`: `updateOrderStatus` with status `cancelled`. -/
def cancelOrder (orderId : String) (s : OrdersSys) : OrdersSys :=
  match s.orders.currentUserId with
  | none => s
  | some u =>
    if u = "" then s
    else if s.orders.orders.any (fun o => o.id == orderId) then
      let orders2 := setStatusFirst s.orders.orders orderId OrderStatus.cancelled
      { orders := { s.orders with orders := orders2 },
        storage := saveOrdersToStorage orders2 (some u) s.storage }
    else s

/-! ## Auth slice (`src/store/slices/authSlice.ts`) -/

/-- The `User` shape (`UserWithPassword` minus the password), as built by
`registerUser` and stored by `loginSuccess`. -/
structure User where
  id : String
  name : String
  email : String
  createdAt : String
  avatar : String
deriving DecidableEq, Repr

/-- A directory record including the raw password. -/
structure UserWithPassword where
  id : String
  name : String
  email : String
  password : String
  createdAt : String
  avatar : String
deriving DecidableEq, Repr

/-- The `{ password, ...userWithoutPassword }` destructuring. -/
def stripPassword (u : UserWithPassword) : User :=
  { id := u.id, name := u.name, email := u.email,
    createdAt := u.createdAt, avatar := u.avatar }

/-- In-memory `AuthState`. -/
structure AuthState where
  user : Option User
  isAuthenticated : Bool
  isLoading : Bool
  error : Option String
  users : List UserWithPassword
deriving DecidableEq, Repr

/-- The auth area of `localStorage`: keys `user` and `users`. -/
structure AuthStorage where
  userKey : Option User
  usersKey : Option (List UserWithPassword)
deriving DecidableEq, Repr

/-- `LoginCredentials`. -/
structure LoginCredentials where
  email : String
  password : String
deriving DecidableEq, Repr

/-- Reducer `loginStart`. -/
def loginStart (a : AuthState) : AuthState :=
  { a with isLoading := true, error := none }

/-- Reducer `loginFailure`. -/
def loginFailure (msg : String) (a : AuthState) : AuthState :=
  { a with isLoading := false, user := none, isAuthenticated := false,
           error := some msg }

/-- Reducer `loginSuccess`, including its `saveUserToStorage` effect. -/
def loginSuccess (u : User) (a : AuthState) (σ : AuthStorage) :
    AuthState × AuthStorage :=
  ({ a with isLoading := false, user := some u, isAuthenticated := true,
            error := none },
   { σ with userKey := some u })

/-- The credential lookup inside the `loginUser` thunk. -/
def findUserByCredentials (users : List UserWithPassword)
    (c : LoginCredentials) : Option UserWithPassword :=
  users.find? (fun u => u.email == c.email && u.password == c.password)

/-- The whole application state the `loginUser` thunk can reach. -/
structure AppSys where
  auth : AuthState
  authStorage : AuthStorage
  cartSys : CartSys
  ordersSys : OrdersSys
deriving DecidableEq, Repr

/-- The `loginUser` thunk: `loginStart`, then after the mock delay either
`loginSuccess` plus `cart/initializeCart` and `orders/initializeOrders`,
or `loginFailure` with the fixed message. -/
def loginUser (c : LoginCredentials) (sys : AppSys) : AppSys :=
  let auth1 := loginStart sys.auth
  match findUserByCredentials auth1.users c with
  | some u =>
    let pair := loginSuccess (stripPassword u) auth1 sys.authStorage
    { auth := pair.1
      authStorage := pair.2
      cartSys := initializeCart u.id sys.cartSys
      ordersSys := initializeOrders u.id sys.ordersSys }
  | none =>
    { sys with auth := loginFailure "Email or password is incorrect." auth1 }

/-! ## Session-timeout configuration (`AutoLogoutProvider.tsx`, `App.jsx`) -/

/-- Default `timeoutDuration` prop of `AutoLogoutProvider`. -/
def autoLogoutDefaultTimeoutMs : Nat := 5 * 60 * 1000

/-- Default `warningDuration` prop of `AutoLogoutProvider`. -/
def autoLogoutDefaultWarningMs : Nat := 30 * 1000

/-- `timeoutDuration` value `App.jsx` passes to `AutoLogoutProvider`. -/
def appTimeoutDuration : Nat := 5 * 60 * 1000

/-- `warningDuration` value `App.jsx` passes to `AutoLogoutProvider`. -/
def appWarningDuration : Nat := 30 * 1000

/-! ## Sequences of cart actions -/

/-- The cart reducers as payloads, for reasoning about dispatch
sequences. -/
inductive CartAction
  | initializeCart (userId : String)
  | clearCartOnLogout
  | addToCart (itemId size : String)
  | updateQuantity (itemId size : String) (quantity : Int)
  | removeFromCart (itemId size : String)
  | removeSelectedItems (items : List SelectedItem)
  | clearCart
deriving DecidableEq, Repr

/-- Dispatch one cart action. -/
def cartStep (a : CartAction) (s : CartSys) : CartSys :=
  match a with
  | CartAction.initializeCart u => initializeCart u s
  | CartAction.clearCartOnLogout => clearCartOnLogout s
  | CartAction.addToCart i sz => addToCart i sz s
  | CartAction.updateQuantity i sz q => updateQuantity i sz q s
  | CartAction.removeFromCart i sz => removeFromCart i sz s
  | CartAction.removeSelectedItems its => removeSelectedItems its s
  | CartAction.clearCart => clearCart s

/-- Dispatch a sequence of cart actions in order. -/
def cartRun (acts : List CartAction) (s : CartSys) : CartSys :=
  acts.foldl (fun s2 a => cartStep a s2) s

/-! ## Invariants and specification-side functions -/

/-- All quantities of one item's size map are strictly positive. -/
def RowPos (r : CartItem) : Prop := ∀ e ∈ r, 0 < e.2

/-- All quantities stored anywhere in a cart are strictly positive. -/
def CartPos (c : CartItems) : Prop := ∀ p ∈ c, RowPos p.2

/-- Every decodable cart in durable storage satisfies `CartPos`. -/
def StoragePos (σ : CartStorage) : Prop :=
  ∀ p ∈ σ, ∀ c : CartItems, p.2 = some c → CartPos c

/-- Combined invariant of the cart slice and its storage. -/
def CartSysPos (s : CartSys) : Prop :=
  CartPos s.cart.cartItems ∧ StoragePos s.storage

/-- A dispatch whose `updateQuantity` payload quantity is nonnegative;
all other cart actions are unrestricted. -/
def GoodCartAction : CartAction → Prop
  | CartAction.updateQuantity _ _ q => 0 ≤ q
  | _ => True

/-- The positive part of a quantity. -/
def positivePart (q : Int) : Int := if 0 < q then q else 0

/-- Specification-side total: the sum of the strictly positive quantities
over every `(itemId, size)` entry of a cart. -/
def cartPositiveSum (c : CartItems) : Int :=
  (c.map (fun item => (item.2.map (fun e => positivePart e.2)).sum)).sum

/-! ## Dictionary lemmas -/

@[simp]
theorem lookupKey_nil {α : Type} (key : String) :
    lookupKey ([] : Entries α) key = none := rfl

@[simp]
theorem lookupKey_setKey_self {α : Type} (l : Entries α) (key : String) (v : α) :
    lookupKey (setKey l key v) key = some v := by
  induction l with
  | nil => simp [setKey, lookupKey]
  | cons p rest ih =>
    obtain ⟨k, w⟩ := p
    by_cases h : k = key
    · simp [setKey, lookupKey, h]
    · simp [setKey, lookupKey, h, ih]

theorem lookupKey_setKey_ne {α : Type} (l : Entries α) (key key2 : String) (v : α)
    (h : key ≠ key2) : lookupKey (setKey l key v) key2 = lookupKey l key2 := by
  induction l with
  | nil => simp [setKey, lookupKey, h]
  | cons p rest ih =>
    obtain ⟨k, w⟩ := p
    by_cases hk : k = key
    · subst hk
      simp [setKey, lookupKey, h]
    · simp [setKey, lookupKey, hk, ih]

theorem mem_of_lookupKey {α : Type} {l : Entries α} {key : String} {v : α}
    (h : lookupKey l key = some v) : (key, v) ∈ l := by
  induction l with
  | nil => simp [lookupKey] at h
  | cons p rest ih =>
    obtain ⟨k, w⟩ := p
    by_cases hk : k = key
    · subst hk
      simp [lookupKey] at h
      subst h
      exact List.mem_cons_self _ _
    · simp [lookupKey, hk] at h
      exact List.mem_cons_of_mem _ (ih h)

theorem mem_setKey {α : Type} {l : Entries α} {key : String} {v : α} {p : String × α}
    (h : p ∈ setKey l key v) : p ∈ l ∨ p = (key, v) := by
  induction l with
  | nil =>
    simp [setKey] at h
    exact Or.inr h
  | cons q rest ih =>
    obtain ⟨k, w⟩ := q
    by_cases hk : k = key
    · simp [setKey, hk] at h
      rcases h with h | h
      · exact Or.inr h
      · exact Or.inl (List.mem_cons_of_mem _ h)
    · simp [setKey, hk] at h
      rcases h with h | h
      · exact Or.inl (by simp [h])
      · rcases ih h with h2 | h2
        · exact Or.inl (List.mem_cons_of_mem _ h2)
        · exact Or.inr h2

theorem mem_eraseKey {α : Type} {l : Entries α} {key : String} {p : String × α}
    (h : p ∈ eraseKey l key) : p ∈ l := by
  induction l with
  | nil => simp [eraseKey] at h
  | cons q rest ih =>
    obtain ⟨k, w⟩ := q
    by_cases hk : k = key
    · simp [eraseKey, hk] at h
      exact List.mem_cons_of_mem _ h
    · simp [eraseKey, hk] at h
      rcases h with h | h
      · simp [h]
      · exact List.mem_cons_of_mem _ (ih h)

/-! ## Preservation of the positivity invariant -/

theorem rowPos_nil : RowPos [] := by
  intro e he
  simp at he

theorem cartPos_nil : CartPos [] := by
  intro p hp
  simp at hp

theorem rowPos_setKey {r : CartItem} {q : Int} (h : RowPos r) (hq : 0 < q)
    (size : String) : RowPos (setKey r size q) := by
  intro e he
  rcases mem_setKey he with h2 | h2
  · exact h e h2
  · rw [h2]
    exact hq

theorem rowPos_eraseKey {r : CartItem} (h : RowPos r) (size : String) :
    RowPos (eraseKey r size) :=
  fun e he => h e (mem_eraseKey he)

theorem cartPos_setKey {c : CartItems} {r : CartItem} (h : CartPos c) (hr : RowPos r)
    (itemId : String) : CartPos (setKey c itemId r) := by
  intro p hp
  rcases mem_setKey hp with h2 | h2
  · exact h p h2
  · rw [h2]
    exact hr

theorem cartPos_eraseKey {c : CartItems} (h : CartPos c) (itemId : String) :
    CartPos (eraseKey c itemId) :=
  fun p hp => h p (mem_eraseKey hp)

theorem cartPos_lookup {c : CartItems} {itemId : String} {r : CartItem}
    (h : CartPos c) (hl : lookupKey c itemId = some r) : RowPos r :=
  h (itemId, r) (mem_of_lookupKey hl)

theorem rowPos_lookup {r : CartItem} {size : String} {q : Int}
    (h : RowPos r) (hl : lookupKey r size = some q) : 0 < q :=
  h (size, q) (mem_of_lookupKey hl)

theorem rowPos_single (size : String) : RowPos [(size, 1)] := by
  intro e he
  simp at he
  rw [he]
  exact Int.one_pos

theorem cartPos_addToCartData {c : CartItems} (h : CartPos c) (itemId size : String) :
    CartPos (addToCartData c itemId size) := by
  unfold addToCartData
  cases hl : lookupKey c itemId with
  | none => exact cartPos_setKey h (rowPos_single size) itemId
  | some inner =>
    have hr := cartPos_lookup h hl
    dsimp only
    cases hi : lookupKey inner size with
    | none => exact cartPos_setKey h (rowPos_setKey hr Int.one_pos size) itemId
    | some q =>
      have hq := rowPos_lookup hr hi
      dsimp only
      rw [if_pos hq.ne']
      exact cartPos_setKey h (rowPos_setKey hr (by omega) size) itemId

theorem cartPos_updateQuantityData {c : CartItems} {quantity : Int} (h : CartPos c)
    (hq : 0 ≤ quantity) (itemId size : String) :
    CartPos (updateQuantityData c itemId size quantity) := by
  unfold updateQuantityData
  by_cases h0 : quantity = 0
  · rw [if_pos h0]
    cases hl : lookupKey c itemId with
    | none => exact h
    | some inner =>
      dsimp only
      split
      · exact cartPos_eraseKey h itemId
      · exact cartPos_setKey h (rowPos_eraseKey (cartPos_lookup h hl) size) itemId
  · rw [if_neg h0]
    have hpos : 0 < quantity := lt_of_le_of_ne hq (Ne.symm h0)
    cases hl : lookupKey c itemId with
    | none => exact cartPos_setKey h (rowPos_setKey rowPos_nil hpos size) itemId
    | some inner =>
      exact cartPos_setKey h (rowPos_setKey (cartPos_lookup h hl) hpos size) itemId

theorem cartPos_removeFromCartData {c : CartItems} (h : CartPos c) (itemId size : String) :
    CartPos (removeFromCartData c itemId size) := by
  unfold removeFromCartData
  cases hl : lookupKey c itemId with
  | none => exact h
  | some inner =>
    dsimp only
    cases hi : lookupKey inner size with
    | none => exact h
    | some q =>
      dsimp only
      split
      · split
        · exact cartPos_eraseKey h itemId
        · exact cartPos_setKey h (rowPos_eraseKey (cartPos_lookup h hl) size) itemId
      · exact h

theorem cartPos_foldl_remove (items : List SelectedItem) :
    ∀ c : CartItems, CartPos c →
      CartPos (items.foldl (fun c2 it => removeFromCartData c2 it.itemId it.size) c) := by
  induction items with
  | nil => exact fun c h => h
  | cons it rest ih =>
    intro c h
    exact ih _ (cartPos_removeFromCartData h it.itemId it.size)

theorem storagePos_save {σ : CartStorage} {c : CartItems} (h : StoragePos σ)
    (hc : CartPos c) (userId : Option String) :
    StoragePos (saveCartToStorage c userId σ) := by
  unfold saveCartToStorage
  cases userId with
  | none => exact h
  | some u =>
    dsimp only
    split
    · exact h
    · intro p hp c2 hc2
      rcases mem_setKey hp with h2 | h2
      · exact h p h2 c2 hc2
      · rw [h2] at hc2
        simp at hc2
        rw [← hc2]
        exact hc

theorem cartPos_load {σ : CartStorage} (h : StoragePos σ) (userId : Option String) :
    CartPos (loadCartFromStorage userId σ) := by
  unfold loadCartFromStorage
  cases userId with
  | none => exact cartPos_nil
  | some u =>
    dsimp only
    split
    · exact cartPos_nil
    · cases hl : lookupKey σ ("cart_" ++ u) with
      | none => exact cartPos_nil
      | some v =>
        cases v with
        | none => exact cartPos_nil
        | some c => exact h _ (mem_of_lookupKey hl) c rfl

theorem cartStep_preserves (a : CartAction) (ha : GoodCartAction a) (s : CartSys)
    (hs : CartSysPos s) : CartSysPos (cartStep a s) := by
  obtain ⟨hm, hσ⟩ := hs
  cases a with
  | initializeCart u => exact ⟨cartPos_load hσ (some u), hσ⟩
  | clearCartOnLogout => exact ⟨cartPos_nil, hσ⟩
  | addToCart i sz =>
    show CartSysPos (addToCart i sz s)
    unfold addToCart
    by_cases hsz : sz = ""
    · rw [if_pos hsz]
      exact ⟨hm, hσ⟩
    · rw [if_neg hsz]
      cases hcu : s.cart.currentUserId with
      | none => exact ⟨hm, hσ⟩
      | some u =>
        dsimp only
        by_cases hu : u = ""
        · rw [if_pos hu]
          exact ⟨hm, hσ⟩
        · rw [if_neg hu]
          exact ⟨cartPos_addToCartData hm i sz,
                 storagePos_save hσ (cartPos_addToCartData hm i sz) (some u)⟩
  | updateQuantity i sz q =>
    have hq : 0 ≤ q := ha
    show CartSysPos (updateQuantity i sz q s)
    unfold updateQuantity
    cases hcu : s.cart.currentUserId with
    | none => exact ⟨hm, hσ⟩
    | some u =>
      dsimp only
      by_cases hu : u = ""
      · rw [if_pos hu]
        exact ⟨hm, hσ⟩
      · rw [if_neg hu]
        exact ⟨cartPos_updateQuantityData hm hq i sz,
               storagePos_save hσ (cartPos_updateQuantityData hm hq i sz) (some u)⟩
  | removeFromCart i sz =>
    show CartSysPos (removeFromCart i sz s)
    unfold removeFromCart
    cases hcu : s.cart.currentUserId with
    | none => exact ⟨hm, hσ⟩
    | some u =>
      dsimp only
      by_cases hu : u = ""
      · rw [if_pos hu]
        exact ⟨hm, hσ⟩
      · rw [if_neg hu]
        exact ⟨cartPos_removeFromCartData hm i sz,
               storagePos_save hσ (cartPos_removeFromCartData hm i sz) (some u)⟩
  | removeSelectedItems its =>
    show CartSysPos (removeSelectedItems its s)
    unfold removeSelectedItems
    cases hcu : s.cart.currentUserId with
    | none => exact ⟨hm, hσ⟩
    | some u =>
      dsimp only
      by_cases hu : u = ""
      · rw [if_pos hu]
        exact ⟨hm, hσ⟩
      · rw [if_neg hu]
        by_cases hits : its = []
        · rw [if_pos hits]
          exact ⟨hm, hσ⟩
        · rw [if_neg hits]
          exact ⟨cartPos_foldl_remove its _ hm,
                 storagePos_save hσ (cartPos_foldl_remove its _ hm) (some u)⟩
  | clearCart =>
    show CartSysPos (clearCart s)
    unfold clearCart
    cases hcu : s.cart.currentUserId with
    | none => exact ⟨hm, hσ⟩
    | some u =>
      dsimp only
      by_cases hu : u = ""
      · rw [if_pos hu]
        exact ⟨hm, hσ⟩
      · rw [if_neg hu]
        by_cases hempty : s.cart.cartItems = []
        · rw [if_pos hempty]
          exact ⟨hm, hσ⟩
        · rw [if_neg hempty]
          exact ⟨cartPos_nil, storagePos_save hσ cartPos_nil (some u)⟩

theorem initCartSysPos : CartSysPos initCartSys := by
  constructor
  · exact cartPos_nil
  · intro p hp
    simp [initCartSys] at hp

theorem cartRun_preserves (acts : List CartAction) :
    (∀ a ∈ acts, GoodCartAction a) →
      ∀ s : CartSys, CartSysPos s → CartSysPos (cartRun acts s) := by
  induction acts with
  | nil => exact fun _ s hs => hs
  | cons a rest ih =>
    intro h s hs
    have hstep : cartRun (a :: rest) s = cartRun rest (cartStep a s) := rfl
    rw [hstep]
    exact ih (fun b hb => h b (List.mem_cons_of_mem a hb)) _
      (cartStep_preserves a (h a (List.mem_cons_self a rest)) s hs)

/-! ## Behaviour of `addToCart` and `selectCartCount` -/

/-- On an active nonempty user and a nonempty size, `addToCart` applies
`addToCartData` and persists the result. -/
theorem addToCart_active (s : CartSys) (u itemId size : String)
    (hu : s.cart.currentUserId = some u) (hu2 : u ≠ "") (hsz : size ≠ "") :
    addToCart itemId size s =
      { cart := { cartItems := addToCartData s.cart.cartItems itemId size,
                  currentUserId := some u },
        storage := saveCartToStorage (addToCartData s.cart.cartItems itemId size)
                     (some u) s.storage } := by
  unfold addToCart
  rw [if_neg hsz, hu]
  dsimp only
  rw [if_neg hu2]

/-- The quantity at the added position after `addToCartData`: one more
than the previous quantity, an absent entry counting as zero. -/
theorem getQty_addToCartData (c : CartItems) (itemId size : String) :
    getQty (addToCartData c itemId size) itemId size =
      some ((getQty c itemId size).getD 0 + 1) := by
  unfold addToCartData getQty
  cases hl : lookupKey c itemId with
  | none =>
    simp [lookupKey_setKey_self, lookupKey]
  | some inner =>
    dsimp only
    cases hi : lookupKey inner size with
    | none => simp [lookupKey_setKey_self]
    | some q =>
      dsimp only
      by_cases hq : q = 0
      · rw [if_neg (by simp [hq])]
        simp [lookupKey_setKey_self, hq]
      · rw [if_pos hq]
        simp [lookupKey_setKey_self]

/-- Folding the inner accumulation of `selectCartCount` equals adding the
positive-part sum of the row. -/
theorem foldl_row_positive (r : CartItem) (a : Int) :
    r.foldl (fun acc2 e => if e.2 > 0 then acc2 + e.2 else acc2) a =
      a + (r.map (fun e => positivePart e.2)).sum := by
  induction r generalizing a with
  | nil => simp
  | cons e rest ih =>
    rw [List.foldl_cons, List.map_cons, List.sum_cons, ih]
    unfold positivePart
    by_cases h : 0 < e.2
    · rw [if_pos (by exact h), if_pos h]
      ring
    · rw [if_neg (by exact h), if_neg h]
      ring

/-- Folding the outer accumulation of `selectCartCount` equals adding the
positive-part sum of the whole cart. -/
theorem foldl_cart_positive (c : CartItems) (a : Int) :
    c.foldl
        (fun acc item =>
          item.2.foldl (fun acc2 e => if e.2 > 0 then acc2 + e.2 else acc2) acc) a =
      a + cartPositiveSum c := by
  induction c generalizing a with
  | nil => simp [cartPositiveSum]
  | cons item rest ih =>
    rw [List.foldl_cons, ih, foldl_row_positive]
    unfold cartPositiveSum
    rw [List.map_cons, List.sum_cons]
    ring

/-! ## Claims -/

/-- C1: from any in-memory cart state (any previous user's items, any
`currentUserId`) and for any nonempty user id `B`, `initializeCart B` sets
`currentUserId` to `B` and replaces `cartItems` with exactly the value
persisted under the key `cart_B` (empty when nothing is persisted there);
afterwards every observable `(itemId, size)` quantity comes from `B`'s
persisted cart. -/
theorem initializeCart_replaces_with_persisted (s : CartSys) (B : String)
    (hB : B ≠ "") :
    (initializeCart B s).cart.currentUserId = some B ∧
    (∀ c : CartItems, lookupKey s.storage ("cart_" ++ B) = some (some c) →
      (initializeCart B s).cart.cartItems = c) ∧
    (lookupKey s.storage ("cart_" ++ B) = none →
      (initializeCart B s).cart.cartItems = []) ∧
    (∀ itemId size : String, ∀ q : Int,
      getQty (initializeCart B s).cart.cartItems itemId size = some q →
      getQty (loadCartFromStorage (some B) s.storage) itemId size = some q) := by
  refine ⟨rfl, ?_, ?_, fun itemId size q hq => hq⟩
  · intro c hc
    show loadCartFromStorage (some B) s.storage = c
    unfold loadCartFromStorage
    dsimp only
    rw [if_neg hB, hc]
  · intro hc
    show loadCartFromStorage (some B) s.storage = []
    unfold loadCartFromStorage
    dsimp only
    rw [if_neg hB, hc]

/-- Witness for C1 at a state where the previous user A has a non-empty
in-memory cart and user B1 has a persisted cart. -/
theorem initializeCart_replaces_with_persisted_witness :
    (initializeCart "B1"
        { cart := { cartItems := [("x", [("L", 5)])], currentUserId := some "A" },
          storage := [("cart_B1", some [("p", [("M", 2)])])] }).cart.currentUserId
      = some "B1" ∧
    (initializeCart "B1"
        { cart := { cartItems := [("x", [("L", 5)])], currentUserId := some "A" },
          storage := [("cart_B1", some [("p", [("M", 2)])])] }).cart.cartItems
      = [("p", [("M", 2)])] := by
  have h := initializeCart_replaces_with_persisted
    { cart := { cartItems := [("x", [("L", 5)])], currentUserId := some "A" },
      storage := [("cart_B1", some [("p", [("M", 2)])])] } "B1" (by decide)
  exact ⟨h.1, h.2.1 [("p", [("M", 2)])] (by decide)⟩

/-- C2: persisting a cart value `V` for a nonempty user id `u` via
`saveCartToStorage`, then dispatching `clearCartOnLogout` followed by
`initializeCart u`, yields in-memory `cartItems` equal to `V`. -/
theorem cart_save_logout_login_roundtrip (s : CartSys) (u : String) (V : CartItems)
    (hu : u ≠ "") :
    (initializeCart u (clearCartOnLogout
        { s with storage := saveCartToStorage V (some u) s.storage })).cart.cartItems
      = V := by
  show loadCartFromStorage (some u) (saveCartToStorage V (some u) s.storage) = V
  unfold loadCartFromStorage saveCartToStorage
  dsimp only
  rw [if_neg hu, if_neg hu, lookupKey_setKey_self]

/-- Witness for C2 with a concrete user and cart value. -/
theorem cart_save_logout_login_roundtrip_witness :
    (initializeCart "u1" (clearCartOnLogout
        { initCartSys with
          storage := saveCartToStorage [("p", [("M", 3)])] (some "u1")
                       initCartSys.storage })).cart.cartItems
      = [("p", [("M", 3)])] :=
  cart_save_logout_login_roundtrip initCartSys "u1" [("p", [("M", 3)])] (by decide)

/-- C3: `clearCartOnLogout` and `clearOrdersOnLogout` empty the in-memory
collections and null the active user, while durable storage is untouched:
the whole storage, hence every key `cart_u` and `orders_u`, is unchanged. -/
theorem logout_clears_memory_not_storage (s : CartSys) (os : OrdersSys) :
    (clearCartOnLogout s).cart.cartItems = [] ∧
    (clearCartOnLogout s).cart.currentUserId = none ∧
    (clearOrdersOnLogout os).orders.orders = [] ∧
    (clearOrdersOnLogout os).orders.currentUserId = none ∧
    (clearCartOnLogout s).storage = s.storage ∧
    (clearOrdersOnLogout os).storage = os.storage ∧
    (∀ u : String, lookupKey (clearCartOnLogout s).storage ("cart_" ++ u) =
      lookupKey s.storage ("cart_" ++ u)) ∧
    (∀ u : String, lookupKey (clearOrdersOnLogout os).storage ("orders_" ++ u) =
      lookupKey os.storage ("orders_" ++ u)) :=
  ⟨rfl, rfl, rfl, rfl, rfl, rfl, fun _ => rfl, fun _ => rfl⟩

/-- C4: a login whose credentials match no directory user yields the fixed
error message with `isAuthenticated` false and `user` null, and changes
neither the cart slice, the orders slice, the users directory nor any
durable storage. -/
theorem failed_login_leaves_state_unchanged (sys : AppSys) (c : LoginCredentials)
    (h : findUserByCredentials sys.auth.users c = none) :
    (loginUser c sys).auth.error = some "Email or password is incorrect." ∧
    (loginUser c sys).auth.isAuthenticated = false ∧
    (loginUser c sys).auth.user = none ∧
    (loginUser c sys).auth.users = sys.auth.users ∧
    (loginUser c sys).cartSys = sys.cartSys ∧
    (loginUser c sys).ordersSys = sys.ordersSys ∧
    (loginUser c sys).authStorage = sys.authStorage := by
  have h2 : findUserByCredentials (loginStart sys.auth).users c = none := h
  unfold loginUser
  dsimp only
  rw [h2]
  exact ⟨rfl, rfl, rfl, rfl, rfl, rfl, rfl⟩

/-- Witness for C4 on an empty user directory. -/
theorem failed_login_leaves_state_unchanged_witness :
    (loginUser { email := "a@b.c", password := "pw" }
        { auth := { user := none, isAuthenticated := false, isLoading := false,
                    error := none, users := [] },
          authStorage := { userKey := none, usersKey := none },
          cartSys := initCartSys, ordersSys := initOrdersSys }).auth.error
      = some "Email or password is incorrect." ∧
    (loginUser { email := "a@b.c", password := "pw" }
        { auth := { user := none, isAuthenticated := false, isLoading := false,
                    error := none, users := [] },
          authStorage := { userKey := none, usersKey := none },
          cartSys := initCartSys, ordersSys := initOrdersSys }).cartSys
      = initCartSys := by
  have h := failed_login_leaves_state_unchanged
    { auth := { user := none, isAuthenticated := false, isLoading := false,
                error := none, users := [] },
      authStorage := { userKey := none, usersKey := none },
      cartSys := initCartSys, ordersSys := initOrdersSys }
    { email := "a@b.c", password := "pw" } rfl
  exact ⟨h.1, h.2.2.2.2.1⟩

/-- C5: with no active user (`currentUserId` null) every cart and orders
mutating reducer is a no-op on the whole system, and the two save helpers
write nothing for a null or empty userId. -/
theorem no_active_user_mutations_are_noops (s : CartSys) (os : OrdersSys)
    (itemId size : String) (q : Int) (sel : List SelectedItem)
    (p : AddOrderPayload) (now : Nat) (oid : String) (st : OrderStatus)
    (c : CartItems) (ords : List Order) (σ : CartStorage) (σo : OrdersStorage)
    (hc : s.cart.currentUserId = none) (ho : os.orders.currentUserId = none) :
    addToCart itemId size s = s ∧
    updateQuantity itemId size q s = s ∧
    removeFromCart itemId size s = s ∧
    removeSelectedItems sel s = s ∧
    clearCart s = s ∧
    addOrder p now os = os ∧
    updateOrderStatus oid st os = os ∧
    cancelOrder oid os = os ∧
    saveCartToStorage c none σ = σ ∧
    saveCartToStorage c (some "") σ = σ ∧
    saveOrdersToStorage ords none σo = σo ∧
    saveOrdersToStorage ords (some "") σo = σo := by
  refine ⟨?_, ?_, ?_, ?_, ?_, ?_, ?_, ?_, rfl, ?_, rfl, ?_⟩
  · unfold addToCart
    rw [hc]
    dsimp only
    split <;> rfl
  · unfold updateQuantity
    rw [hc]
  · unfold removeFromCart
    rw [hc]
  · unfold removeSelectedItems
    rw [hc]
  · unfold clearCart
    rw [hc]
  · unfold addOrder
    rw [ho]
  · unfold updateOrderStatus
    rw [ho]
  · unfold cancelOrder
    rw [ho]
  · unfold saveCartToStorage
    dsimp only
    rw [if_pos rfl]
  · unfold saveOrdersToStorage
    dsimp only
    rw [if_pos rfl]

/-- Witness for C5 at the initial (logged-out) slices. -/
theorem no_active_user_mutations_are_noops_witness :
    addToCart "p1" "M" initCartSys = initCartSys ∧
    updateQuantity "p1" "M" 2 initCartSys = initCartSys ∧
    removeFromCart "p1" "M" initCartSys = initCartSys ∧
    removeSelectedItems [{ itemId := "p1", size := "M" }] initCartSys = initCartSys ∧
    clearCart initCartSys = initCartSys ∧
    addOrder
        { orderData := { paymentMethod := none, totalAmount := 10 },
          cartItems := [],
          deliveryInfo := { firstName := "f", lastName := "l", email := "e",
                            street := "s", city := "c", state := "st",
                            zipcode := "z", country := "co", phone := "ph" } }
        0 initOrdersSys = initOrdersSys ∧
    updateOrderStatus "o1" OrderStatus.pending initOrdersSys = initOrdersSys ∧
    cancelOrder "o1" initOrdersSys = initOrdersSys ∧
    saveCartToStorage [] none [] = ([] : CartStorage) ∧
    saveCartToStorage [] (some "") [] = ([] : CartStorage) ∧
    saveOrdersToStorage [] none [] = ([] : OrdersStorage) ∧
    saveOrdersToStorage [] (some "") [] = ([] : OrdersStorage) :=
  no_active_user_mutations_are_noops initCartSys initOrdersSys "p1" "M" 2
    [{ itemId := "p1", size := "M" }]
    { orderData := { paymentMethod := none, totalAmount := 10 },
      cartItems := [],
      deliveryInfo := { firstName := "f", lastName := "l", email := "e",
                        street := "s", city := "c", state := "st",
                        zipcode := "z", country := "co", phone := "ph" } }
    0 "o1" OrderStatus.pending [] [] [] [] rfl rfl

/-- C6: loading a persisted collection returns the empty default (`{}` for
the cart, `[]` for order history) when the userId is null, when nothing is
persisted under the key, and when the stored string fails to deserialize;
both loaders are total functions, so no exception reaches the caller. -/
theorem load_returns_default_on_missing_or_corrupt (σc : CartStorage)
    (σo : OrdersStorage) (u : String)
    (hc : lookupKey σc ("cart_" ++ u) = none ∨
          lookupKey σc ("cart_" ++ u) = some none)
    (ho : lookupKey σo ("orders_" ++ u) = none ∨
          lookupKey σo ("orders_" ++ u) = some none) :
    loadCartFromStorage none σc = [] ∧
    loadOrdersFromStorage none σo = [] ∧
    loadCartFromStorage (some u) σc = [] ∧
    loadOrdersFromStorage (some u) σo = [] := by
  refine ⟨rfl, rfl, ?_, ?_⟩
  · unfold loadCartFromStorage
    dsimp only
    by_cases hu : u = ""
    · rw [if_pos hu]
    · rw [if_neg hu]
      rcases hc with h | h <;> rw [h]
  · unfold loadOrdersFromStorage
    dsimp only
    by_cases hu : u = ""
    · rw [if_pos hu]
    · rw [if_neg hu]
      rcases ho with h | h <;> rw [h]

/-- Witness for C6: a corrupt cart entry and an absent orders entry. -/
theorem load_returns_default_on_missing_or_corrupt_witness :
    loadCartFromStorage none [("cart_u1", none)] = [] ∧
    loadOrdersFromStorage none ([] : OrdersStorage) = [] ∧
    loadCartFromStorage (some "u1") [("cart_u1", none)] = [] ∧
    loadOrdersFromStorage (some "u1") ([] : OrdersStorage) = [] :=
  load_returns_default_on_missing_or_corrupt [("cart_u1", none)] [] "u1"
    (Or.inr rfl) (Or.inl rfl)

/-- C7 as stated is false: from the empty initial state the cart reducer
sequence `initializeCart "u1"; updateQuantity "p1" "M" (-3)` stores the
non-positive quantity `-3`, because `updateQuantity` only deletes on a
quantity of exactly `0` and stores any other payload quantity verbatim. -/
theorem cart_negative_quantity_reachable :
    ¬ (∀ (acts : List CartAction) (itemId size : String) (q : Int),
        getQty (cartRun acts initCartSys).cart.cartItems itemId size = some q →
          0 < q) := by
  intro h
  have h2 := h [CartAction.initializeCart "u1",
                CartAction.updateQuantity "p1" "M" (-3)] "p1" "M" (-3) (by decide)
  exact absurd h2 (by decide)

/-- C7 amended: in every state reachable from the empty initial state by a
sequence of the cart reducers in which every `updateQuantity` payload
quantity is nonnegative, every stored quantity is strictly positive (so a
zero quantity is only ever represented by the absence of the entry). -/
theorem cart_quantities_positive (acts : List CartAction)
    (h : ∀ a ∈ acts, GoodCartAction a) (itemId size : String) (q : Int)
    (hq : getQty (cartRun acts initCartSys).cart.cartItems itemId size = some q) :
    0 < q := by
  have hpos := (cartRun_preserves acts h initCartSys initCartSysPos).1
  unfold getQty at hq
  cases hl : lookupKey (cartRun acts initCartSys).cart.cartItems itemId with
  | none =>
    rw [hl] at hq
    simp at hq
  | some inner =>
    rw [hl] at hq
    exact rowPos_lookup (cartPos_lookup hpos hl) hq

/-- Witness for C7 on the sequence that logs in and adds one item. -/
theorem cart_quantities_positive_witness :
    getQty (cartRun [CartAction.initializeCart "u1", CartAction.addToCart "p1" "M"]
        initCartSys).cart.cartItems "p1" "M" = some 1 ∧ (0 : Int) < 1 := by
  refine ⟨by decide, ?_⟩
  exact cart_quantities_positive
    [CartAction.initializeCart "u1", CartAction.addToCart "p1" "M"]
    (by intro a ha; fin_cases ha <;> trivial) "p1" "M" 1 (by decide)

/-- C8: for an active nonempty user and a nonempty size, `addToCart` sets
the quantity at `(itemId, size)` to one more than the previous quantity
(an absent entry counting as zero, so a fresh entry gets `1`); adding the
same item and size twice starting from an empty cart yields `2`. -/
theorem addToCart_increments_quantity (s : CartSys) (u itemId size : String)
    (hu : s.cart.currentUserId = some u) (hu2 : u ≠ "") (hsz : size ≠ "") :
    getQty (addToCart itemId size s).cart.cartItems itemId size =
      some ((getQty s.cart.cartItems itemId size).getD 0 + 1) ∧
    (s.cart.cartItems = [] →
      getQty (addToCart itemId size (addToCart itemId size s)).cart.cartItems
          itemId size = some 2) := by
  have h1 := addToCart_active s u itemId size hu hu2 hsz
  constructor
  · rw [h1]
    exact getQty_addToCartData s.cart.cartItems itemId size
  · intro h0
    have h2 := addToCart_active (addToCart itemId size s) u itemId size
      (by rw [h1]) hu2 hsz
    rw [h2, h1, h0]
    rw [getQty_addToCartData]
    rw [getQty_addToCartData]
    simp [getQty]

/-- Witness for C8: two adds of `("p1", "M")` from the empty cart of the
logged-in user u1. -/
theorem addToCart_increments_quantity_witness :
    getQty (addToCart "p1" "M"
        { cart := { cartItems := [], currentUserId := some "u1" },
          storage := [] }).cart.cartItems "p1" "M" = some 1 ∧
    getQty (addToCart "p1" "M" (addToCart "p1" "M"
        { cart := { cartItems := [], currentUserId := some "u1" },
          storage := [] })).cart.cartItems "p1" "M" = some 2 := by
  have h := addToCart_increments_quantity
    { cart := { cartItems := [], currentUserId := some "u1" }, storage := [] }
    "u1" "p1" "M" rfl (by decide) (by decide)
  refine ⟨?_, h.2 rfl⟩
  have h2 := h.1
  simpa [getQty] using h2

/-- C9: the session-timeout defaults are `timeoutMs = 300000` (5 minutes)
and `warningMs = 30000` (30 seconds), `App.jsx` passes exactly these values
to `AutoLogoutProvider`, and the pair satisfies `warningMs < timeoutMs`. -/
theorem autoLogout_configuration :
    autoLogoutDefaultTimeoutMs = 300000 ∧
    autoLogoutDefaultWarningMs = 30000 ∧
    appTimeoutDuration = autoLogoutDefaultTimeoutMs ∧
    appWarningDuration = autoLogoutDefaultWarningMs ∧
    autoLogoutDefaultWarningMs < autoLogoutDefaultTimeoutMs := by
  refine ⟨rfl, rfl, rfl, rfl, ?_⟩
  decide

/-- C10 as stated is false: the state with `currentUserId` the non-null
value `""` (the empty string is falsy in JS) and a non-empty cart makes
`selectCartCount` return `0` although the sum of the strictly positive
quantities is `2`. -/
theorem selectCartCount_empty_user_counterexample :
    ({ cartItems := [("p1", [("M", 2)])],
       currentUserId := some "" } : CartState).currentUserId ≠ none ∧
    selectCartCount { cartItems := [("p1", [("M", 2)])],
                      currentUserId := some "" } = 0 ∧
    cartPositiveSum [("p1", [("M", 2)])] = 2 ∧
    (0 : Int) ≠ 2 := by
  refine ⟨by simp, rfl, by decide, by decide⟩

/-- C10 amended: `selectCartCount` returns `0` whenever `currentUserId` is
null or the empty string, even on a non-empty `cartItems`; when
`currentUserId` is a non-empty string it returns the sum of all strictly
positive quantities over every `(itemId, size)` entry. -/
theorem selectCartCount_sums_positive (c : CartItems) (u : String) (hu : u ≠ "") :
    selectCartCount { cartItems := c, currentUserId := none } = 0 ∧
    selectCartCount { cartItems := c, currentUserId := some "" } = 0 ∧
    selectCartCount { cartItems := c, currentUserId := some u } =
      cartPositiveSum c := by
  refine ⟨rfl, rfl, ?_⟩
  show (if u = "" then 0 else c.foldl
    (fun acc item =>
      item.2.foldl (fun acc2 e => if e.2 > 0 then acc2 + e.2 else acc2) acc) 0) =
    cartPositiveSum c
  rw [if_neg hu]
  rw [foldl_cart_positive]
  ring

/-- Witness for C10 on a cart holding a positive and a negative entry. -/
theorem selectCartCount_sums_positive_witness :
    selectCartCount { cartItems := [("p1", [("M", 2), ("S", -1)])],
                      currentUserId := none } = 0 ∧
    selectCartCount { cartItems := [("p1", [("M", 2), ("S", -1)])],
                      currentUserId := some "" } = 0 ∧
    selectCartCount { cartItems := [("p1", [("M", 2), ("S", -1)])],
                      currentUserId := some "u1" } =
      cartPositiveSum [("p1", [("M", 2), ("S", -1)])] :=
  selectCartCount_sums_positive [("p1", [("M", 2), ("S", -1)])] "u1" (by decide)

end Clothes2
